import Mathlib

/-!
Verification of the quanta_dorsa synapse simulator.

Shallow embedding in Lean 4 of the C++ sources:
  src/cpp_simulation/synapse.cpp  (Config, Synapse, Simulation)
  src/cpp_simulation/synapse_sim.cpp  (config-driven main)
  src/synapse_sim.cpp  (standalone main with positional CLI arguments)

Doubles are modelled as rationals; the process-wide random generator is
modelled as an explicit stream `s : ℕ → ℚ` of uniform draws together with
a cursor index, so that each call to `dis(gen)` reads `s i` and advances
the cursor.  Calls to `exit(1)` with a message on standard error are
modelled by `Except.error msg`; an uncaught C++ exception is modelled by
a dedicated `crashed` outcome.
-/

/-- One result row, from `struct SimData` in src/cpp_simulation/synapse.h
(fields: time, pre_activity, post_activity, synaptic_weight, region). -/
structure SimData where
  time : ℚ
  pre_activity : ℚ
  post_activity : ℚ
  synaptic_weight : ℚ
  region : String
deriving Repr, DecidableEq

/-- `Synapse::update` from src/cpp_simulation/synapse.cpp lines 108-116:
`dw = (-decay_rate*weight + learning_rate*pre*post)*dt; weight += dw;`
then the two sequential clamping `if`s (`> 1.0` first, `< 0.0` second).
The synapse's single `weight` member is threaded explicitly, so the
update is a function of exactly the six inputs. -/
def Synapse.update (weight pre_activity post_activity learning_rate decay_rate dt : ℚ) : ℚ :=
  let dw := (-decay_rate * weight + learning_rate * pre_activity * post_activity) * dt
  let w1 := weight + dw
  let w2 := if w1 > 1 then 1 else w1
  if w2 < 0 then 0 else w2

/-- `std::clamp(v, lo, hi)` as defined by the C++ standard library:
`v < lo ? lo : hi < v ? hi : v`.  Used by src/synapse_sim.cpp line 55. -/
def stdClamp (v lo hi : ℚ) : ℚ :=
  if v < lo then lo else if hi < v then hi else v

/-- The weight update of the standalone variant, src/synapse_sim.cpp
lines 53-55: `dw = (-decay_rate*w + learning_rate*pre*post)*DT;
w += dw; w = std::clamp(w, 0.0, 1.0)`. -/
def standaloneUpdate (synaptic_weight pre_activity post_activity learning_rate decay_rate dt : ℚ) : ℚ :=
  stdClamp (synaptic_weight + (-decay_rate * synaptic_weight + learning_rate * pre_activity * post_activity) * dt) 0 1

/-- Spec-side update rule, stated from the specification's own words
(spec.md §4.2): `dw = (-λ*w + η*pre*post)*dt` and
`wʹ = clamp(w + dw, 0.0, 1.0)`, with clamp written as max/min. -/
def updateSpec (w pre post eta lam dt : ℚ) : ℚ :=
  max 0 (min 1 (w + (-lam * w + eta * pre * post) * dt))

/-- The per-step activity generation, src/cpp_simulation/synapse.cpp
lines 141-142 (identical to src/synapse_sim.cpp lines 51-52):

  `pre = dis(gen) > 0.7 ? 1.0 : 0.0;`
  `post = (pre > 0.5 && dis(gen) > 0.3) ? 1.0 : (dis(gen) > 0.9 ? 1.0 : 0.0);`

The draw stream `s` with cursor `i` models the sequential calls to
`dis(gen)`; C++ `&&` short-circuits, so the `> 0.3` draw happens only
when `pre > 0.5`, and the `> 0.9` draw happens exactly when the ternary
condition came out false.  Returns `(pre, post, new cursor)`. -/
def genActivity (s : ℕ → ℚ) (i : ℕ) : ℚ × ℚ × ℕ :=
  let u1 := s i
  let pre := if u1 > 7/10 then (1 : ℚ) else 0
  if pre > 1/2 then
    let u2 := s (i + 1)
    if u2 > 3/10 then (pre, 1, i + 2)
    else
      let u3 := s (i + 2)
      (pre, if u3 > 9/10 then 1 else 0, i + 3)
  else
    let u3 := s (i + 1)
    (pre, if u3 > 9/10 then 1 else 0, i + 2)

/-- The loop body of `Simulation::run`, src/cpp_simulation/synapse.cpp
lines 139-147: `for (double t = 0; t < sim_duration; t += dt)`, each
iteration generating an activity pair, updating the synapse and
appending a row.  Returns the accumulated rows and the final weight.
The C++ loop diverges when `dt ≤ 0` and `t < sim_duration`; the
embedding guards on `0 < dt` so that it is total, and is only used
where the loop terminates (`0 < dt`, or `sim_duration ≤ t` at entry,
where both agree with the source). -/
def runLoop (sim_duration dt learning_rate decay_rate : ℚ) (region : String)
    (s : ℕ → ℚ) (t weight : ℚ) (i : ℕ) : List SimData × ℚ :=
  if h : t < sim_duration ∧ 0 < dt then
    let a := genActivity s i
    let w' := Synapse.update weight a.1 a.2.1 learning_rate decay_rate dt
    let rest := runLoop sim_duration dt learning_rate decay_rate region s (t + dt) w' a.2.2
    (⟨t, a.1, a.2.1, w', region⟩ :: rest.1, rest.2)
  else ([], weight)
termination_by (⌈(sim_duration - t) / dt⌉).toNat
decreasing_by
  have hdt : (0 : ℚ) < dt := h.2
  have hne : dt ≠ 0 := ne_of_gt hdt
  have key : (sim_duration - (t + dt)) / dt = (sim_duration - t) / dt - 1 := by
    field_simp
    ring
  have h1 : (0 : ℚ) < (sim_duration - t) / dt := div_pos (by linarith [h.1]) hdt
  have h2 : (1 : ℤ) ≤ ⌈(sim_duration - t) / dt⌉ := Int.ceil_pos.mpr h1
  have h3 : ⌈(sim_duration - t) / dt - 1⌉ = ⌈(sim_duration - t) / dt⌉ - 1 :=
    Int.ceil_sub_one _
  rw [key, h3]
  omega

/-- `Simulation::run` started from a fresh `Simulation` object
(src/cpp_simulation/synapse.cpp lines 124-148): time starts at 0, the
synapse holds `initial_weight`, the random cursor is at 0 and the row
vector is empty. -/
def Simulation.run (sim_duration dt learning_rate decay_rate initial_weight : ℚ)
    (region : String) (s : ℕ → ℚ) : List SimData × ℚ :=
  runLoop sim_duration dt learning_rate decay_rate region s 0 initial_weight 0

/-- The weight trajectory produced by repeatedly applying
`Synapse::update` to a fixed list of activity pairs: the element at
position `n` is the weight after `n` updates (position 0 is the
initial weight).  This is the "fixed sequence of activity samples"
view of the driver loop used by the spec's testable properties. -/
def weights (learning_rate decay_rate dt w0 : ℚ) (acts : List (ℚ × ℚ)) : List ℚ :=
  acts.scanl (fun w a => Synapse.update w a.1 a.2 learning_rate decay_rate dt) w0

/-- The post-activity value predicted by claim C3's words: one further
draw after the pre draw; when pre fired, post = 1 exactly when that
draw exceeds 0.3 (otherwise post = 0); when pre did not fire, post = 1
exactly when that draw exceeds 0.9.  Stated from the claim, to be
compared against `genActivity` from the source. -/
def claimedPost (s : ℕ → ℚ) (i : ℕ) : ℚ :=
  if s i > 7/10 then (if s (i + 1) > 3/10 then 1 else 0)
  else (if s (i + 1) > 9/10 then 1 else 0)

/-- The draw-stream cursor after one step as predicted by claim C3's
words: exactly one draw for pre and exactly one further draw for post,
i.e. two draws per step. -/
def claimedNext (i : ℕ) : ℕ := i + 2

/-- A concrete draw stream: every draw is 0. -/
def sZero : ℕ → ℚ := fun _ => 0

/-- A concrete draw stream: 0.8, then 0.2, then 0.95, then zeros. -/
def s3 : ℕ → ℚ :=
  fun i => if i = 0 then 8/10 else if i = 1 then 2/10 else if i = 2 then 95/100 else 0

/-- Outcome of a call to `std::stod`: a value, or one of the two
exceptions the C++ standard specifies (`std::invalid_argument` when no
conversion could be performed, `std::out_of_range` when the parsed
value is outside the range of `double`). -/
inductive StodOutcome where
  | ok (v : ℚ)
  | invalidArg
  | outOfRange
deriving Repr, DecidableEq

/-- Whether a `std::stod` call returned normally. -/
def StodOutcome.isOk : StodOutcome → Bool
  | .ok _ => true
  | _ => false

/-- The message printed by `Config::get_double` (and `get_int`,
`get_string`) when `std::out_of_range` is caught,
src/cpp_simulation/synapse.cpp line 70. -/
def notFoundMsg (key : String) : String :=
  "Error: Configuration key \x27" ++ key ++ "\x27 not found."

/-- The message printed by `Config::get_double` when
`std::invalid_argument` is caught, src/cpp_simulation/synapse.cpp
line 73. -/
def invalidMsg (key : String) : String :=
  "Error: Invalid numeric value for key \x27" ++ key ++ "\x27."

/-- `Config::get_double`, src/cpp_simulation/synapse.cpp lines 66-76.
The parsed config is the key→value map `data` (an association list);
`std::map::at` on a missing key throws `std::out_of_range`, and
`std::stod` may throw either exception; both `catch` clauses are
modelled by the corresponding error branches.  Note that an
`std::out_of_range` thrown by `std::stod` (overflowing numeric text)
is caught by the same handler as a missing key.  `exit(1)` with a
message on standard error is modelled by `Except.error`. -/
def Config.get_double (data : List (String × String)) (stod : String → StodOutcome)
    (key : String) : Except String ℚ :=
  match data.lookup key with
  | none => Except.error (notFoundMsg key)
  | some v =>
    match stod v with
    | StodOutcome.ok x => Except.ok x
    | StodOutcome.invalidArg => Except.error (invalidMsg key)
    | StodOutcome.outOfRange => Except.error (notFoundMsg key)

/-- The quote-stripping in `Config::get_string`,
src/cpp_simulation/synapse.cpp lines 93-96. -/
def stripQuotes (v : String) : String :=
  if 2 ≤ v.length ∧ v.front = '\"' ∧ v.back = '\"' then (v.drop 1).dropRight 1 else v

/-- `Config::get_string`, src/cpp_simulation/synapse.cpp lines 90-102. -/
def Config.get_string (data : List (String × String)) (key : String) : Except String String :=
  match data.lookup key with
  | none => Except.error (notFoundMsg key)
  | some v => Except.ok (stripQuotes v)

/-- The six values loaded by the config-driven `main`. -/
structure SimParams where
  sim_duration : ℚ
  dt : ℚ
  learning_rate : ℚ
  decay_rate : ℚ
  initial_weight : ℚ
  region : String

/-- The configuration-loading phase of `main` in
src/cpp_simulation/synapse_sim.cpp lines 15-20: the five `get_double`
calls and the `get_string` call, in source order.  The first getter
that calls `exit(1)` terminates the process, which the `Except`
short-circuiting models (no later getter runs, no partial output is
produced). -/
def loadParams (data : List (String × String)) (stod : String → StodOutcome) :
    Except String SimParams :=
  match Config.get_double data stod ("sim_duration") with
  | Except.error m => Except.error m
  | Except.ok sd =>
  match Config.get_double data stod ("dt") with
  | Except.error m => Except.error m
  | Except.ok dtv =>
  match Config.get_double data stod ("learning_rate") with
  | Except.error m => Except.error m
  | Except.ok lr =>
  match Config.get_double data stod ("decay_rate") with
  | Except.error m => Except.error m
  | Except.ok dr =>
  match Config.get_double data stod ("initial_weight") with
  | Except.error m => Except.error m
  | Except.ok iw =>
  match Config.get_string data ("region") with
  | Except.error m => Except.error m
  | Except.ok reg => Except.ok ⟨sd, dtv, lr, dr, iw, reg⟩

/-- The keys `main` requires, in load order. -/
def requiredKeys : List String :=
  ["sim_duration", "dt", "learning_rate", "decay_rate", "initial_weight", "region"]

/-- A required key is offending for a given config: missing, or (for
the five numeric keys) present with a value on which `std::stod` does
not return normally. -/
def keyBad (data : List (String × String)) (stod : String → StodOutcome)
    (key : String) : Prop :=
  if key = "region" then data.lookup key = none
  else data.lookup key = none ∨ ∃ v, data.lookup key = some v ∧ (stod v).isOk = false

/-- Outcome of the argument-handling phase of the standalone `main`
(src/synapse_sim.cpp): parameters to run with, `exit1` = message on
standard error and return code 1, or `crashed` = abnormal termination
by an uncaught exception. -/
inductive RunOutcome where
  | ok (learning_rate decay_rate sim_duration : ℚ)
  | exit1 (msg : String)
  | crashed
deriving Repr, DecidableEq

/-- Whether the outcome is a message-plus-exit-code-1 termination. -/
def RunOutcome.isExit1 : RunOutcome → Bool
  | .exit1 _ => true
  | _ => false

/-- The error message of src/synapse_sim.cpp line 36. -/
def invalidNumberMsg : String := "Error: Invalid argument. Please provide numbers."

/-- The argument-handling of the standalone `main`,
src/synapse_sim.cpp lines 18-39.  `argc` is `args.length + 1`
(`argv[0]` is the program name, modelled by `argv0`).  The three
`std::stod` calls run in sequence inside one `try`; the first
exception wins; only `std::invalid_argument` is caught, so an
`std::out_of_range` propagates out of `main` (`crashed`).  With no
arguments the built-in defaults `learning_rate = 0.5`,
`decay_rate = 0.1`, `sim_duration = 10.0` are used. -/
def parseArgs (argv0 : String) (args : List String) (stod : String → StodOutcome) : RunOutcome :=
  if args.length + 1 ≠ 1 ∧ args.length + 1 ≠ 4 then
    RunOutcome.exit1 ("Usage: " ++ argv0 ++ " [learning_rate decay_rate sim_duration]")
  else
    match args with
    | [a1, a2, a3] =>
      match stod a1 with
      | StodOutcome.invalidArg => RunOutcome.exit1 invalidNumberMsg
      | StodOutcome.outOfRange => RunOutcome.crashed
      | StodOutcome.ok lr =>
        match stod a2 with
        | StodOutcome.invalidArg => RunOutcome.exit1 invalidNumberMsg
        | StodOutcome.outOfRange => RunOutcome.crashed
        | StodOutcome.ok dr =>
          match stod a3 with
          | StodOutcome.invalidArg => RunOutcome.exit1 invalidNumberMsg
          | StodOutcome.outOfRange => RunOutcome.crashed
          | StodOutcome.ok dur => RunOutcome.ok lr dr dur
    | _ => RunOutcome.ok (1/2) (1/10) 10

/-- The argument check of the config-driven `main`,
src/cpp_simulation/synapse_sim.cpp lines 7-10: `argc != 2` prints the
usage line and returns 1 (`some message`); otherwise the program
proceeds (`none`). -/
def configCheck (argv0 : String) (args : List String) : Option String :=
  if args.length + 1 ≠ 2 then some ("Usage: " ++ argv0 ++ " <path_to_config.json>") else none

/-- A concrete `std::stod` behaviour for witnesses: the text `1e999`
is well-formed but overflows double (`std::out_of_range`), the text
`2` converts to 2, anything else has no leading numeric text
(`std::invalid_argument`). -/
def stodW : String → StodOutcome := fun v =>
  if v = "1e999" then StodOutcome.outOfRange
  else if v = "2" then StodOutcome.ok 2
  else StodOutcome.invalidArg

/-- A concrete `std::stod` behaviour for witnesses: nothing converts. -/
def stodInv : String → StodOutcome := fun _ => StodOutcome.invalidArg

/-- A concrete parsed config whose `dt` value overflows double. -/
def overflowConfig : List (String × String) := [(("dt"), ("1e999"))]

/-- After the two clamping `if`s, the weight is in `[0,1]`, for any
inputs whatsoever. -/
lemma update_mem_unit (w p q lr dr dt : ℚ) :
    0 ≤ Synapse.update w p q lr dr dt ∧ Synapse.update w p q lr dr dt ≤ 1 := by
  simp only [Synapse.update]
  split_ifs <;> constructor <;> linarith

/-- Every row appended by the simulation loop records a clamped weight. -/
lemma runLoop_rows_unit (sim_duration dt learning_rate decay_rate : ℚ) (region : String)
    (s : ℕ → ℚ) (t weight : ℚ) (i : ℕ) :
    ∀ r ∈ (runLoop sim_duration dt learning_rate decay_rate region s t weight i).1,
      0 ≤ r.synaptic_weight ∧ r.synaptic_weight ≤ 1 := by
  induction t, weight, i using runLoop.induct sim_duration dt learning_rate decay_rate region s with
  | case1 t weight i h a w' ih =>
    intro r hr
    rw [runLoop] at hr
    rw [dif_pos h] at hr
    rcases List.mem_cons.mp hr with h1 | h2
    · subst h1
      exact update_mem_unit _ _ _ _ _ _
    · exact ih r h2
  | case2 t weight i h =>
    intro r hr
    rw [runLoop, dif_neg h] at hr
    simp at hr

/-- For a positive step `dt`, the loop starting at time `t` performs
`⌈(sim_duration - t) / dt⌉` iterations (0 when the quantity is not
positive). -/
lemma runLoop_length (sim_duration dt learning_rate decay_rate : ℚ) (region : String)
    (s : ℕ → ℚ) (hdt : 0 < dt) (t weight : ℚ) (i : ℕ) :
    ((runLoop sim_duration dt learning_rate decay_rate region s t weight i).1).length
      = (⌈(sim_duration - t) / dt⌉).toNat := by
  induction t, weight, i using runLoop.induct sim_duration dt learning_rate decay_rate region s with
  | case1 t weight i h a w' ih =>
    rw [runLoop, dif_pos h]
    simp only [List.length_cons]
    rw [ih]
    have hne : dt ≠ 0 := ne_of_gt hdt
    have key : (sim_duration - (t + dt)) / dt = (sim_duration - t) / dt - 1 := by
      field_simp; ring
    have h1 : (0 : ℚ) < (sim_duration - t) / dt := div_pos (by linarith [h.1]) hdt
    have h2 : (1 : ℤ) ≤ ⌈(sim_duration - t) / dt⌉ := Int.ceil_pos.mpr h1
    have h3 : ⌈(sim_duration - t) / dt - 1⌉ = ⌈(sim_duration - t) / dt⌉ - 1 :=
      Int.ceil_sub_one _
    rw [key, h3]
    omega
  | case2 t weight i h =>
    rw [runLoop, dif_neg h]
    have ht : sim_duration ≤ t := by
      by_contra hc
      exact h ⟨by linarith, hdt⟩
    have hle : (sim_duration - t) / dt ≤ 0 :=
      div_nonpos_of_nonpos_of_nonneg (by linarith) (le_of_lt hdt)
    have h4 : ⌈(sim_duration - t) / dt⌉ ≤ 0 := Int.ceil_le.mpr (by exact_mod_cast hle)
    simp
    omega

/-- A `scanl` always starts with its initial accumulator. -/
lemma scanl_head (f : ℚ → ℚ × ℚ → ℚ) (b : ℚ) (l : List (ℚ × ℚ)) :
    (List.scanl f b l).head? = some b := by
  cases l <;> rfl

/-- With zero learning rate the update never increases a weight that
starts nonnegative. -/
lemma update_le_self (w p q dr dt : ℚ) (hw0 : 0 ≤ w) (hdr : 0 ≤ dr) (hdt : 0 ≤ dt) :
    Synapse.update w p q 0 dr dt ≤ w := by
  have hprod : 0 ≤ dr * w * dt := by positivity
  simp only [Synapse.update]
  split_ifs <;> nlinarith

/-- With zero learning rate and zero decay the update is the identity
on `[0,1]`. -/
lemma update_eta_lam_zero (w p q dt : ℚ) (hw0 : 0 ≤ w) (hw1 : w ≤ 1) :
    Synapse.update w p q 0 0 dt = w := by
  simp only [Synapse.update]
  split_ifs <;> nlinarith

/-- With zero learning rate and nonnegative decay, the weight
trajectory is non-increasing step to step. -/
lemma weights_antitone (decay_rate dt : ℚ) (hdr : 0 ≤ decay_rate) (hdt : 0 ≤ dt) :
    ∀ (acts : List (ℚ × ℚ)) (w : ℚ), 0 ≤ w → w ≤ 1 →
      List.Chain' (fun a b => b ≤ a) (weights 0 decay_rate dt w acts) := by
  intro acts
  induction acts with
  | nil => intro w _ _; simp [weights]
  | cons a as ih =>
    intro w hw0 hw1
    rw [weights, List.scanl_cons, List.singleton_append, List.chain'_cons']
    refine ⟨?_, ih _ (update_mem_unit _ _ _ _ _ _).1 (update_mem_unit _ _ _ _ _ _).2⟩
    intro y hy
    rw [scanl_head] at hy
    cases hy
    exact update_le_self w a.1 a.2 decay_rate dt hw0 hdr hdt

/-- With zero learning rate and zero decay, every trajectory element
equals the initial weight. -/
lemma weights_const (dt : ℚ) :
    ∀ (acts : List (ℚ × ℚ)) (w : ℚ), 0 ≤ w → w ≤ 1 →
      ∀ x ∈ weights 0 0 dt w acts, x = w := by
  intro acts
  induction acts with
  | nil => intro w _ _; simp [weights]
  | cons a as ih =>
    intro w hw0 hw1 x hx
    rw [weights, List.scanl_cons, update_eta_lam_zero _ _ _ _ hw0 hw1] at hx
    rcases List.mem_cons.mp hx with h | h
    · exact h
    · exact ih w hw0 hw1 x h

/-- A failing numeric key makes `get_double` report one of its two
messages for that key. -/
lemma get_double_bad (data : List (String × String)) (stod : String → StodOutcome)
    (key : String) (hk : key ≠ "region") (h : keyBad data stod key) :
    Config.get_double data stod key = Except.error (notFoundMsg key) ∨
    Config.get_double data stod key = Except.error (invalidMsg key) := by
  rw [keyBad, if_neg hk] at h
  rcases h with h | ⟨v, hv, hbad⟩
  · left; simp [Config.get_double, h]
  · cases hs : stod v with
    | ok x => rw [hs] at hbad; simp [StodOutcome.isOk] at hbad
    | invalidArg => right; simp [Config.get_double, hv, hs]
    | outOfRange => left; simp [Config.get_double, hv, hs]

/-- A non-failing numeric key makes `get_double` return a value. -/
lemma get_double_good (data : List (String × String)) (stod : String → StodOutcome)
    (key : String) (hk : key ≠ "region") (h : ¬ keyBad data stod key) :
    ∃ x, Config.get_double data stod key = Except.ok x := by
  rw [keyBad, if_neg hk] at h
  push_neg at h
  obtain ⟨h1, h2⟩ := h
  cases hl : data.lookup key with
  | none => exact absurd hl h1
  | some v =>
    cases hs : stod v with
    | ok x => exact ⟨x, by simp [Config.get_double, hl, hs]⟩
    | invalidArg => exact ((by simpa [hs, StodOutcome.isOk] using h2 v hl : False)).elim
    | outOfRange => exact ((by simpa [hs, StodOutcome.isOk] using h2 v hl : False)).elim

/-- A missing `region` key makes `get_string` report its message. -/
lemma get_string_bad (data : List (String × String)) (stod : String → StodOutcome)
    (h : keyBad data stod ("region")) :
    Config.get_string data ("region") = Except.error (notFoundMsg ("region")) := by
  rw [keyBad, if_pos rfl] at h
  simp [Config.get_string, h]

/-- A present `region` key makes `get_string` return a value. -/
lemma get_string_good (data : List (String × String)) (stod : String → StodOutcome)
    (h : ¬ keyBad data stod ("region")) :
    ∃ r, Config.get_string data ("region") = Except.ok r := by
  rw [keyBad, if_pos rfl] at h
  cases hl : data.lookup ("region") with
  | none => exact absurd hl h
  | some v => exact ⟨stripQuotes v, by simp [Config.get_string, hl]⟩

/-- The two `get_double` error messages are never the same string
(their fixed parts have different lengths). -/
lemma msgs_ne (key : String) : notFoundMsg key ≠ invalidMsg key := by
  intro h
  have hl := congrArg String.length h
  rw [notFoundMsg, invalidMsg] at hl
  simp only [String.length_append] at hl
  have e1 : ("Error: Configuration key \x27" : String).length = 26 := rfl
  have e2 : ("\x27 not found." : String).length = 12 := rfl
  have e3 : ("Error: Invalid numeric value for key \x27" : String).length = 38 := rfl
  have e4 : ("\x27." : String).length = 2 := rfl
  rw [e1, e2, e3, e4] at hl
  omega

/-- C1: for every weight `w ∈ [0,1]`, activity pair with `pre, post ∈
{0,1}`, and nonnegative `learning_rate`, `decay_rate`, `dt`, the
weight produced by `Synapse::update` lies in `[0,1]`; consequently the
weight recorded in every result row of a run started from
`initial_weight ∈ [0,1]` lies in `[0,1]`. -/
theorem weight_clamp_invariant :
    (∀ w pre post learning_rate decay_rate dt : ℚ,
       0 ≤ w → w ≤ 1 → (pre = 0 ∨ pre = 1) → (post = 0 ∨ post = 1) →
       0 ≤ learning_rate → 0 ≤ decay_rate → 0 ≤ dt →
       0 ≤ Synapse.update w pre post learning_rate decay_rate dt ∧
         Synapse.update w pre post learning_rate decay_rate dt ≤ 1) ∧
    (∀ (sim_duration dt learning_rate decay_rate initial_weight : ℚ)
       (region : String) (s : ℕ → ℚ),
       0 ≤ initial_weight → initial_weight ≤ 1 →
       ∀ r ∈ (Simulation.run sim_duration dt learning_rate decay_rate initial_weight region s).1,
         0 ≤ r.synaptic_weight ∧ r.synaptic_weight ≤ 1) := by
  constructor
  · intro w pre post learning_rate decay_rate dt _ _ _ _ _ _ _
    exact update_mem_unit w pre post learning_rate decay_rate dt
  · intro sim_duration dt learning_rate decay_rate initial_weight region s _ _
    exact runLoop_rows_unit sim_duration dt learning_rate decay_rate region s 0 initial_weight 0

/-- Witness for C1 at a concrete input. -/
theorem weight_clamp_invariant_witness :
    0 ≤ Synapse.update (1/2) 1 1 (1/2) (1/10) (1/100) ∧
    Synapse.update (1/2) 1 1 (1/2) (1/10) (1/100) ≤ 1 :=
  weight_clamp_invariant.1 (1/2) 1 1 (1/2) (1/10) (1/100)
    (by norm_num) (by norm_num) (Or.inr rfl) (Or.inr rfl)
    (by norm_num) (by norm_num) (by norm_num)

/-- C2: both weight updaters compute exactly
`clamp(w + (-λ*w + η*pre*post)*dt, 0, 1)` as a pure function of the
six inputs `(w, pre, post, η, λ, dt)`: `Synapse::update` (two
sequential clamping `if`s) and the standalone loop's
`std::clamp` form both equal the spec-side `updateSpec`. -/
theorem update_formula_refines (w pre post learning_rate decay_rate dt : ℚ) :
    Synapse.update w pre post learning_rate decay_rate dt
      = updateSpec w pre post learning_rate decay_rate dt ∧
    standaloneUpdate w pre post learning_rate decay_rate dt
      = updateSpec w pre post learning_rate decay_rate dt := by
  constructor <;>
  · simp only [Synapse.update, standaloneUpdate, stdClamp, updateSpec]
    rcases le_or_lt (w + (-decay_rate * w + learning_rate * pre * post) * dt) 0 with h0 | h0 <;>
      rcases le_or_lt (w + (-decay_rate * w + learning_rate * pre * post) * dt) 1 with h1 | h1 <;>
      split_ifs <;>
      simp [max_def, min_def] <;> split_ifs <;> linarith

/-- C3 counterexample: with draws `0.8, 0.2, 0.95` the source's
generator sets `post = 1` using a third draw, while the claim predicts
`post = 0` after exactly two draws: when pre fired and the second draw
is ≤ 0.3, the C++ ternary falls through to `dis(gen) > 0.9` with a
fresh draw instead of settling on 0. -/
theorem activity_third_draw_counterexample :
    (genActivity s3 0).2.1 = 1 ∧ claimedPost s3 0 = 0 ∧
    (genActivity s3 0).2.1 ≠ claimedPost s3 0 ∧
    (genActivity s3 0).2.2 = 3 ∧ claimedNext 0 = 2 ∧
    (genActivity s3 0).2.2 ≠ claimedNext 0 := by
  norm_num [genActivity, claimedPost, claimedNext, s3]

/-- C3 (amended): per step, one draw `u1` decides pre (`pre = 1` iff
`u1 > 0.7`); when pre fired, a second draw `u2` is taken and `post = 1`
if `u2 > 0.3`, but if `u2 ≤ 0.3` a third draw `u3` is taken and
`post = 1` iff `u3 > 0.9`; when pre did not fire, a single further draw
`u3` decides `post = 1` iff `u3 > 0.9`.  So a step consumes two draws,
except when pre fired and `u2 ≤ 0.3`, where it consumes three. -/
theorem activity_draw_sequencing (s : ℕ → ℚ) (i : ℕ) :
    ((genActivity s i).1 = if s i > 7/10 then 1 else 0) ∧
    (s i > 7/10 → s (i + 1) > 3/10 → genActivity s i = (1, 1, i + 2)) ∧
    (s i > 7/10 → s (i + 1) ≤ 3/10 →
      genActivity s i = (1, if s (i + 2) > 9/10 then 1 else 0, i + 3)) ∧
    (s i ≤ 7/10 → genActivity s i = (0, if s (i + 1) > 9/10 then 1 else 0, i + 2)) := by
  by_cases h1 : s i > 7/10 <;> by_cases h2 : s (i + 1) > 3/10 <;>
    simp [genActivity, h1, h2] <;> norm_num

/-- Witness for C3's amended theorem at the concrete draw stream `s3`. -/
theorem activity_draw_sequencing_witness :
    s3 0 > 7/10 ∧ s3 1 ≤ 3/10 ∧ genActivity s3 0 = (1, 1, 3) := by
  refine ⟨by norm_num [s3], by norm_num [s3], ?_⟩
  have h := (activity_draw_sequencing s3 0).2.2.1 (by norm_num [s3]) (by norm_num [s3])
  rw [h]
  norm_num [s3]

/-- C4 counterexample: with `duration = 1` and `dt = 3/10` the loop
performs 4 iterations, not `⌊duration / dt⌋ = 3`: the loop runs for
`t = 0, 0.3, 0.6, 0.9`, i.e. `⌈duration / dt⌉` times. -/
theorem step_count_floor_counterexample :
    ((Simulation.run 1 (3/10) (1/2) (1/10) (1/2) ("hippocampus") sZero).1).length = 4 ∧
    (⌊(1 : ℚ) / (3/10)⌋).toNat = 3 ∧
    ((Simulation.run 1 (3/10) (1/2) (1/10) (1/2) ("hippocampus") sZero).1).length
      ≠ (⌊(1 : ℚ) / (3/10)⌋).toNat := by
  have hlen : ((Simulation.run 1 (3/10) (1/2) (1/10) (1/2) ("hippocampus") sZero).1).length
      = (⌈((1 : ℚ) - 0) / (3/10)⌉).toNat := by
    rw [Simulation.run]
    exact runLoop_length 1 (3/10) (1/2) (1/10) ("hippocampus") sZero (by norm_num) 0 (1/2) 0
  have hceil : (⌈((1 : ℚ) - 0) / (3/10)⌉).toNat = 4 := by
    have h : ⌈((1 : ℚ) - 0) / (3/10)⌉ = 4 := by
      rw [Int.ceil_eq_iff] <;> norm_num
    rw [h]
    rfl
  have hfloor : (⌊(1 : ℚ) / (3/10)⌋).toNat = 3 := by
    have h : ⌊(1 : ℚ) / (3/10)⌋ = 3 := by
      rw [Int.floor_eq_iff] <;> norm_num
    rw [h]
    rfl
  refine ⟨hlen.trans hceil, hfloor, ?_⟩
  rw [hlen.trans hceil, hfloor]
  decide

/-- C4 (amended): for every `dt > 0` the driver appends exactly
`⌈sim_duration / dt⌉` result rows (so `⌊sim_duration / dt⌋` exactly
when `dt` divides `sim_duration`); in particular for `duration = 1`
and `dt = 1/10` it appends exactly 10 rows. -/
theorem step_count_ceil (sim_duration dt learning_rate decay_rate initial_weight : ℚ)
    (region : String) (s : ℕ → ℚ) (hdt : 0 < dt) :
    ((Simulation.run sim_duration dt learning_rate decay_rate initial_weight region s).1).length
      = (⌈sim_duration / dt⌉).toNat ∧
    ((Simulation.run 1 (1/10) learning_rate decay_rate initial_weight region s).1).length = 10 := by
  constructor
  · rw [Simulation.run,
      runLoop_length sim_duration dt learning_rate decay_rate region s hdt 0 initial_weight 0,
      sub_zero]
  · rw [Simulation.run,
      runLoop_length 1 (1/10) learning_rate decay_rate region s (by norm_num) 0 initial_weight 0,
      sub_zero]
    have h : ⌈(1 : ℚ) / (1/10)⌉ = 10 := by
      rw [show (1 : ℚ) / (1/10) = 10 by norm_num]
      exact_mod_cast Int.ceil_intCast (10 : ℤ)
    rw [h]
    rfl

/-- Witness for C4's amended theorem at a concrete configuration. -/
theorem step_count_ceil_witness :
    (0 : ℚ) < 1/10 ∧
    ((Simulation.run 1 (1/10) (1/2) (1/10) (1/2) ("cortex") sZero).1).length = 10 :=
  ⟨by norm_num,
   (step_count_ceil 1 (1/10) (1/2) (1/10) (1/2) ("cortex") sZero (by norm_num)).2⟩

/-- C5: for every initial weight in `[0,1]`, every activity sequence
and every `dt > 0`, with `η = 0` the weight trajectory is
non-increasing step to step when `λ > 0`, and exactly constant when
`λ = 0`. -/
theorem eta_zero_weight_monotone (learning_rate decay_rate dt w0 : ℚ)
    (acts : List (ℚ × ℚ)) (hlr : learning_rate = 0) (hdt : 0 < dt)
    (hw0 : 0 ≤ w0) (hw1 : w0 ≤ 1) :
    (0 < decay_rate →
      List.Chain' (fun a b => b ≤ a) (weights learning_rate decay_rate dt w0 acts)) ∧
    (decay_rate = 0 →
      ∀ x ∈ weights learning_rate decay_rate dt w0 acts, x = w0) := by
  subst hlr
  constructor
  · intro hdr
    exact weights_antitone decay_rate dt (le_of_lt hdr) (le_of_lt hdt) acts w0 hw0 hw1
  · intro h0
    subst h0
    exact weights_const dt acts w0 hw0 hw1

/-- Witness for C5 at a concrete trajectory of two steps. -/
theorem eta_zero_weight_monotone_witness :
    List.Chain' (fun a b : ℚ => b ≤ a) (weights 0 (1/10) (1/2) (3/4) [(1, 1), (0, 1)]) ∧
    (∀ x ∈ weights 0 0 (1/2) (3/4) [(1, 1), (0, 1)], x = 3/4) :=
  ⟨(eta_zero_weight_monotone 0 (1/10) (1/2) (3/4) [(1, 1), (0, 1)]
      rfl (by norm_num) (by norm_num) (by norm_num)).1 (by norm_num),
   (eta_zero_weight_monotone 0 0 (1/2) (3/4) [(1, 1), (0, 1)]
      rfl (by norm_num) (by norm_num) (by norm_num)).2 rfl⟩

/-- C8: with `sim_duration ≤ 0` the loop condition `t < sim_duration`
fails at `t = 0`, so `Simulation::run` performs zero iterations: no
rows are appended and the synapse's weight is still exactly
`initial_weight` (no update call occurs). -/
theorem run_nonpositive_duration (sim_duration dt learning_rate decay_rate initial_weight : ℚ)
    (region : String) (s : ℕ → ℚ) (hdur : sim_duration ≤ 0) :
    Simulation.run sim_duration dt learning_rate decay_rate initial_weight region s
      = ([], initial_weight) := by
  rw [Simulation.run, runLoop, dif_neg]
  rintro ⟨h1, h2⟩
  linarith

/-- Witness for C8 at a concrete nonpositive duration. -/
theorem run_nonpositive_duration_witness :
    (-1 : ℚ) ≤ 0 ∧
    Simulation.run (-1) (1/10) (1/2) (1/10) (1/2) ("thalamus") sZero = ([], 1/2) :=
  ⟨by norm_num,
   run_nonpositive_duration (-1) (1/10) (1/2) (1/10) (1/2) ("thalamus") sZero (by norm_num)⟩

/-- C6: if any required key is missing from the configuration, or a
numeric key's value cannot be converted to a number, the config-driven
`main` fails fast: `loadParams` stops at an offending key with an error
message naming that key (modelling the message on standard error and
`exit(1)`, with no partial output), instead of producing parameters. -/
theorem config_missing_or_malformed_fails (data : List (String × String))
    (stod : String → StodOutcome)
    (hbad : ∃ k ∈ requiredKeys, keyBad data stod k) :
    ∃ k ∈ requiredKeys, keyBad data stod k ∧
      (loadParams data stod = Except.error (notFoundMsg k) ∨
       loadParams data stod = Except.error (invalidMsg k)) := by
  by_cases h1 : keyBad data stod ("sim_duration")
  · refine ⟨("sim_duration"), by simp [requiredKeys], h1, ?_⟩
    rcases get_double_bad data stod _ (by decide) h1 with h | h
    · left; simp [loadParams, h]
    · right; simp [loadParams, h]
  · obtain ⟨v1, hv1⟩ := get_double_good data stod _ (by decide) h1
    by_cases h2 : keyBad data stod ("dt")
    · refine ⟨("dt"), by simp [requiredKeys], h2, ?_⟩
      rcases get_double_bad data stod _ (by decide) h2 with h | h
      · left; simp [loadParams, hv1, h]
      · right; simp [loadParams, hv1, h]
    · obtain ⟨v2, hv2⟩ := get_double_good data stod _ (by decide) h2
      by_cases h3 : keyBad data stod ("learning_rate")
      · refine ⟨("learning_rate"), by simp [requiredKeys], h3, ?_⟩
        rcases get_double_bad data stod _ (by decide) h3 with h | h
        · left; simp [loadParams, hv1, hv2, h]
        · right; simp [loadParams, hv1, hv2, h]
      · obtain ⟨v3, hv3⟩ := get_double_good data stod _ (by decide) h3
        by_cases h4 : keyBad data stod ("decay_rate")
        · refine ⟨("decay_rate"), by simp [requiredKeys], h4, ?_⟩
          rcases get_double_bad data stod _ (by decide) h4 with h | h
          · left; simp [loadParams, hv1, hv2, hv3, h]
          · right; simp [loadParams, hv1, hv2, hv3, h]
        · obtain ⟨v4, hv4⟩ := get_double_good data stod _ (by decide) h4
          by_cases h5 : keyBad data stod ("initial_weight")
          · refine ⟨("initial_weight"), by simp [requiredKeys], h5, ?_⟩
            rcases get_double_bad data stod _ (by decide) h5 with h | h
            · left; simp [loadParams, hv1, hv2, hv3, hv4, h]
            · right; simp [loadParams, hv1, hv2, hv3, hv4, h]
          · obtain ⟨v5, hv5⟩ := get_double_good data stod _ (by decide) h5
            by_cases h6 : keyBad data stod ("region")
            · refine ⟨("region"), by simp [requiredKeys], h6, ?_⟩
              left
              simp [loadParams, hv1, hv2, hv3, hv4, hv5, get_string_bad data stod h6]
            · obtain ⟨k, hk, hkbad⟩ := hbad
              simp [requiredKeys] at hk
              rcases hk with rfl | rfl | rfl | rfl | rfl | rfl <;>
                first
                  | exact absurd hkbad h1
                  | exact absurd hkbad h2
                  | exact absurd hkbad h3
                  | exact absurd hkbad h4
                  | exact absurd hkbad h5
                  | exact absurd hkbad h6

/-- Witness for C6: the empty configuration is missing every key, and
loading stops at `sim_duration` with the message naming it. -/
theorem config_missing_or_malformed_fails_witness :
    (∃ k ∈ requiredKeys, keyBad [] stodInv k) ∧
    (∃ k ∈ requiredKeys, keyBad [] stodInv k ∧
      (loadParams [] stodInv = Except.error (notFoundMsg k) ∨
       loadParams [] stodInv = Except.error (invalidMsg k))) :=
  have hbad : ∃ k ∈ requiredKeys, keyBad [] stodInv k :=
    ⟨("sim_duration"), by simp [requiredKeys],
     by rw [keyBad, if_neg (by decide)]; left; rfl⟩
  ⟨hbad, config_missing_or_malformed_fails [] stodInv hbad⟩

/-- C9: a present numeric key whose well-formed value overflows double
(`std::stod` raises `std::out_of_range`) takes the same branch of
`Config::get_double` as a genuinely missing key, reporting the
"not found" message, never the invalid-numeric-value message; the
invalid-value branch is taken only when conversion finds no numeric
text (`std::invalid_argument`). -/
theorem config_overflow_not_found (data : List (String × String))
    (stod : String → StodOutcome) (key v : String)
    (hv : data.lookup key = some v) (hof : stod v = StodOutcome.outOfRange) :
    Config.get_double data stod key = Except.error (notFoundMsg key) ∧
    Config.get_double [] stod key = Except.error (notFoundMsg key) ∧
    Config.get_double data stod key ≠ Except.error (invalidMsg key) ∧
    (∀ data' : List (String × String),
       Config.get_double data' stod key = Except.error (invalidMsg key) →
       ∃ w, data'.lookup key = some w ∧ stod w = StodOutcome.invalidArg) := by
  have h1 : Config.get_double data stod key = Except.error (notFoundMsg key) := by
    simp [Config.get_double, hv, hof]
  refine ⟨h1, by simp [Config.get_double], ?_, ?_⟩
  · rw [h1]
    intro h
    exact msgs_ne key (by simpa using h)
  · intro data' h
    rw [Config.get_double] at h
    cases hl : data'.lookup key with
    | none =>
      rw [hl] at h
      exact absurd (by simpa using h) (msgs_ne key)
    | some w =>
      rw [hl] at h
      cases hs : stod w with
      | ok x => simp [hs] at h
      | invalidArg => exact ⟨w, rfl, hs⟩
      | outOfRange =>
        simp [hs] at h
        exact absurd h (msgs_ne key)

/-- Witness for C9: a config whose `dt` holds `1e999` is reported
exactly like a config with no `dt` at all. -/
theorem config_overflow_not_found_witness :
    Config.get_double overflowConfig stodW ("dt") = Except.error (notFoundMsg ("dt")) ∧
    Config.get_double [] stodW ("dt") = Except.error (notFoundMsg ("dt")) :=
  have h := config_overflow_not_found overflowConfig stodW ("dt") ("1e999") rfl rfl
  ⟨h.1, h.2.1⟩

/-- C7 counterexample: the three-argument invocation
`(1e999, abc, 2)` has an argument (`abc`) that does not parse as a
number, yet the program does not print an error and exit with code 1:
`std::stod("1e999")` raises `std::out_of_range` first, which is not
caught, so the program terminates abnormally. -/
theorem cli_args_counterexample :
    parseArgs ("prog") [("1e999"), ("abc"), ("2")] stodW = RunOutcome.crashed ∧
    (parseArgs ("prog") [("1e999"), ("abc"), ("2")] stodW).isExit1 = false ∧
    stodW ("abc") = StodOutcome.invalidArg := by
  refine ⟨?_, ?_, ?_⟩ <;> simp [parseArgs, stodW, RunOutcome.isExit1]

/-- C7 (amended): the standalone CLI accepts zero arguments (defaults
`0.5, 0.1, 10`) or exactly three arguments that all convert
(`learning_rate, decay_rate, sim_duration`); every other argument
count prints usage and exits 1; a three-argument invocation whose
first failing conversion (in order) is a parse failure prints the
error and exits 1 (when the first failure is an overflow the program
instead crashes, see C10); the config variant accepts exactly one
argument and prints usage and exits 1 for every other count. -/
theorem cli_args_amended :
    (∀ (argv0 : String) (stod : String → StodOutcome),
       parseArgs argv0 [] stod = RunOutcome.ok (1/2) (1/10) 10) ∧
    (∀ (argv0 : String) (args : List String) (stod : String → StodOutcome),
       args.length ≠ 0 → args.length ≠ 3 →
       (parseArgs argv0 args stod).isExit1 = true) ∧
    (∀ (argv0 a1 a2 a3 : String) (stod : String → StodOutcome) (v1 v2 v3 : ℚ),
       stod a1 = StodOutcome.ok v1 → stod a2 = StodOutcome.ok v2 →
       stod a3 = StodOutcome.ok v3 →
       parseArgs argv0 [a1, a2, a3] stod = RunOutcome.ok v1 v2 v3) ∧
    (∀ (argv0 a1 a2 a3 : String) (stod : String → StodOutcome),
       (stod a1 = StodOutcome.invalidArg ∨
        (∃ v1, stod a1 = StodOutcome.ok v1 ∧ (stod a2 = StodOutcome.invalidArg ∨
           (∃ v2, stod a2 = StodOutcome.ok v2 ∧ stod a3 = StodOutcome.invalidArg)))) →
       parseArgs argv0 [a1, a2, a3] stod = RunOutcome.exit1 invalidNumberMsg) ∧
    (∀ (argv0 : String) (args : List String), args.length = 1 →
       configCheck argv0 args = none) ∧
    (∀ (argv0 : String) (args : List String), args.length ≠ 1 →
       ∃ m, configCheck argv0 args = some m) := by
  refine ⟨?_, ?_, ?_, ?_, ?_, ?_⟩
  · intro argv0 stod
    simp [parseArgs]
  · intro argv0 args stod h0 h3
    delta parseArgs
    rw [if_pos (by omega)]
    rfl
  · intro argv0 a1 a2 a3 stod v1 v2 v3 h1 h2 h3
    simp [parseArgs, h1, h2, h3]
  · intro argv0 a1 a2 a3 stod h
    rcases h with h | ⟨v1, hv1, h⟩
    · simp [parseArgs, h]
    rcases h with h | ⟨v2, hv2, h⟩
    · simp [parseArgs, hv1, h]
    · simp [parseArgs, hv1, hv2, h]
  · intro argv0 args h
    rw [configCheck, if_neg (by omega)]
  · intro argv0 args h
    exact ⟨_, by rw [configCheck, if_pos (by omega)]⟩

/-- Witness for C7's amended theorem at concrete invocations. -/
theorem cli_args_amended_witness :
    parseArgs ("prog") [] stodW = RunOutcome.ok (1/2) (1/10) 10 ∧
    (parseArgs ("prog") [("2")] stodW).isExit1 = true ∧
    parseArgs ("prog") [("2"), ("2"), ("2")] stodW = RunOutcome.ok 2 2 2 ∧
    parseArgs ("prog") [("abc"), ("2"), ("2")] stodW = RunOutcome.exit1 invalidNumberMsg ∧
    configCheck ("prog") [("config.json")] = none ∧
    (∃ m, configCheck ("prog") [] = some m) :=
  ⟨cli_args_amended.1 ("prog") stodW,
   cli_args_amended.2.1 ("prog") [("2")] stodW (by simp) (by simp),
   cli_args_amended.2.2.1 ("prog") ("2") ("2") ("2") stodW 2 2 2 rfl rfl rfl,
   cli_args_amended.2.2.2.1 ("prog") ("abc") ("2") ("2") stodW (Or.inl rfl),
   cli_args_amended.2.2.2.2.1 ("prog") [("config.json")] rfl,
   cli_args_amended.2.2.2.2.2 ("prog") [] (by simp)⟩

/-- C10: in the three-positional-argument variant, when the first
`std::stod` call that fails does so with `std::out_of_range` (a
well-formed number overflowing double), no handler catches it: the
program terminates abnormally instead of printing the error message
and returning exit code 1. -/
theorem cli_overflow_uncaught (argv0 a1 a2 a3 : String) (stod : String → StodOutcome)
    (h : stod a1 = StodOutcome.outOfRange ∨
         (∃ v1, stod a1 = StodOutcome.ok v1 ∧ (stod a2 = StodOutcome.outOfRange ∨
            (∃ v2, stod a2 = StodOutcome.ok v2 ∧ stod a3 = StodOutcome.outOfRange)))) :
    parseArgs argv0 [a1, a2, a3] stod = RunOutcome.crashed ∧
    (parseArgs argv0 [a1, a2, a3] stod).isExit1 = false := by
  rcases h with h | ⟨v1, hv1, h⟩
  · constructor <;> simp [parseArgs, h, RunOutcome.isExit1]
  rcases h with h | ⟨v2, hv2, h⟩
  · constructor <;> simp [parseArgs, hv1, h, RunOutcome.isExit1]
  · constructor <;> simp [parseArgs, hv1, hv2, h, RunOutcome.isExit1]

/-- Witness for C10 at the concrete invocation `(2, 1e999, 2)`. -/
theorem cli_overflow_uncaught_witness :
    stodW ("1e999") = StodOutcome.outOfRange ∧
    parseArgs ("prog") [("2"), ("1e999"), ("2")] stodW = RunOutcome.crashed :=
  ⟨rfl,
   (cli_overflow_uncaught ("prog") ("2") ("1e999") ("2") stodW
     (Or.inr ⟨2, rfl, Or.inl rfl⟩)).1⟩
